import Mathlib

/-!
Verification of the particle compute-shader orchestration core.

Shallow embedding of `src/main.rs` (crate `bevy_gpu_compute`): the constants,
the setup data (particle array and `ParticleConfig`), the per-frame bind-group
preparation system `prepare_bind_group`, and the render-graph node
`ParticleNode` with its `update` (state transition) and `run` (dispatch)
methods.  Panics (`panic!`, `unwrap()` on `None`, `unreachable!()`, missing
`world.resource`) are modelled as `Except.error` carrying the panic message;
frames after a panic never happen, which the trace functions reflect by
propagating the error.
-/

/-- Constant `SHADER_COMPUTE_PATH` of main.rs line 20: the shader path string. -/
def SHADER_COMPUTE_PATH : String := "compute.wgsl"

/-- Constant `DISPLAY_FACTOR` of main.rs line 23, a `u32` equal to 4. -/
def DISPLAY_FACTOR : Nat := 4

/-- Constant `SIZE` of main.rs line 24: the pair
`(1280 / DISPLAY_FACTOR, 720 / DISPLAY_FACTOR)` of `u32`.  All values stay
far below `2^32`, so `Nat` division coincides with `u32` division. -/
def SIZE : Nat × Nat := (1280 / DISPLAY_FACTOR, 720 / DISPLAY_FACTOR)

/-- Constant `WORKGROUP_SIZE` of main.rs line 25, a `u32` equal to 8. -/
def WORKGROUP_SIZE : Nat := 8

/-- Component type of `Vec3` fields of `Particle`.  Only `Vec3::ZERO` is ever
produced by the embedded code (setup builds all particles at zero), so the
numeric carrier is irrelevant; we use `Int`. -/
structure Vec3 where
  x : Int
  y : Int
  z : Int
deriving DecidableEq, Repr

/-- Value `Vec3::ZERO`. -/
def Vec3.ZERO : Vec3 := ⟨0, 0, 0⟩

/-- Record `Particle` of main.rs lines 52-57, with `position` and `velocity` fields. -/
structure Particle where
  position : Vec3
  velocity : Vec3
deriving DecidableEq, Repr

/-- Record `ParticleConfig` of main.rs lines 59-63, holding the single field
`particle_count`.  That field is a `u32`; the only value the program ever
stores is `1000 < 2^32`, so `Nat` is a faithful carrier. -/
structure ParticleConfig where
  particle_count : Nat
deriving DecidableEq, Repr

/-- Binding `particle_count` of `setup`, main.rs line 112: the literal 1000. -/
def setupParticleCount : Nat := 1000

/-- The particle array built in `setup` (main.rs lines 115-121):
`vec![Particle { position: Vec3::ZERO, velocity: Vec3::ZERO }; particle_count]`. -/
def setupParticles : List Particle :=
  List.replicate setupParticleCount { position := Vec3.ZERO, velocity := Vec3.ZERO }

/-- Binding `particle_config` of `setup`, main.rs line 145: the config value
uploaded into the config buffer. -/
def setupConfig : ParticleConfig := { particle_count := setupParticleCount }

/-- Status of a cached compute pipeline as polled through
`PipelineCache::get_compute_pipeline_state`.  `Pending` stands for every
non-final status (`Queued`, `Creating`, ...), matched by the `_ => {}` arms. -/
inductive CachedPipelineState where
  | Pending : CachedPipelineState
  | Ok : CachedPipelineState
  | Err : String → CachedPipelineState
deriving DecidableEq, Repr

/-- Enum `ParticleState` of main.rs lines 301-305: Loading, Init, or Update with a `usize` phase. -/
inductive ParticleState where
  | Loading : ParticleState
  | Init : ParticleState
  | Update : Nat → ParticleState
deriving DecidableEq, Repr

/-- Initial state: `ParticleNode::default()` starts in `Loading` (main.rs lines 311-317). -/
def ParticleNode.defaultState : ParticleState := ParticleState.Loading

/-- Which compute program a dispatch runs, identified by entry point. -/
inductive Program where
  | initProg : Program
  | updateProg : Program
deriving DecidableEq, Repr

/-- One `dispatch_workgroups` call recorded by `ParticleNode::run`: the
pipeline that was set and the workgroup grid. -/
structure Dispatch where
  program : Program
  x : Nat
  y : Nat
  z : Nat
deriving DecidableEq, Repr

/-- The message of the panic raised at main.rs line 333, which cites the
shader path and the compiler error. -/
def loadingPanicMsg (err : String) : String :=
  "Initializing assets/" ++ SHADER_COMPUTE_PATH ++ ":\n" ++ err

/-- The panic message of the unreachable arm at main.rs line 354. -/
def unreachableMsg : String := "internal error: entered unreachable code"

/-- The panic message of `Option::unwrap` on `None`. -/
def unwrapNoneMsg : String := "called Option::unwrap on a None value"

/-- The panic message of `World::resource` when `ParticleBindGroups` is absent. -/
def missingBindGroupsMsg : String :=
  "Requested resource ParticleBindGroups does not exist"

/-- Method `ParticleNode::update` of main.rs lines 320-356.  Inputs are the two polled
pipeline statuses (`get_compute_pipeline_state` on `init_pipeline` and
`update_pipeline`) and the current state; the result is the new state, or the
panic message if the call panics. -/
def ParticleNode.update (initStatus updateStatus : CachedPipelineState) :
    ParticleState → Except String ParticleState
  | ParticleState.Loading =>
    match initStatus with
    | CachedPipelineState.Ok => Except.ok ParticleState.Init
    | CachedPipelineState.Err err => Except.error (loadingPanicMsg err)
    | CachedPipelineState.Pending => Except.ok ParticleState.Loading
  | ParticleState.Init =>
    match updateStatus with
    | CachedPipelineState.Ok => Except.ok (ParticleState.Update 1)
    | _ => Except.ok ParticleState.Init
  | ParticleState.Update 0 => Except.ok (ParticleState.Update 1)
  | ParticleState.Update 1 => Except.ok (ParticleState.Update 0)
  | ParticleState.Update _ => Except.error unreachableMsg

/-- Method `ParticleNode::run` of main.rs lines 358-399.  Inputs: whether the
`ParticleBindGroups` resource exists in the render world, whether
`get_compute_pipeline` succeeds for the init and for the update pipeline
(each `unwrap`ped), and the node state.  Result: the dispatch recorded into
the compute pass (`none` in `Loading`), or the panic message. -/
def ParticleNode.run (bindGroup initLookup updateLookup : Bool) :
    ParticleState → Except String (Option Dispatch)
  | ParticleState.Loading => Except.ok none
  | ParticleState.Init =>
    if bindGroup then
      if initLookup then
        Except.ok (some { program := Program.initProg,
                          x := SIZE.1 / WORKGROUP_SIZE,
                          y := SIZE.2 / WORKGROUP_SIZE, z := 1 })
      else Except.error unwrapNoneMsg
    else Except.error missingBindGroupsMsg
  | ParticleState.Update _ =>
    if bindGroup then
      if updateLookup then
        Except.ok (some { program := Program.updateProg,
                          x := SIZE.1 / WORKGROUP_SIZE,
                          y := SIZE.2 / WORKGROUP_SIZE, z := 1 })
      else Except.error unwrapNoneMsg
    else Except.error missingBindGroupsMsg

/-- The render-world observations one frame of the graph node makes:
the two polled pipeline statuses, the two pipeline-cache lookups in `run`,
and whether the `ParticleBindGroups` resource exists when `run` executes. -/
structure FrameInput where
  initStatus : CachedPipelineState
  updateStatus : CachedPipelineState
  initLookup : Bool
  updateLookup : Bool
  bindGroup : Bool
deriving DecidableEq, Repr

/-- One render frame of the node: the graph calls `update`, then `run`, on the
same render world.  Result: the state after `update` together with the
dispatch issued by `run`, or the panic message that aborted the process. -/
def frameStep (i : FrameInput) (s : ParticleState) :
    Except String (ParticleState × Option Dispatch) :=
  match ParticleNode.update i.initStatus i.updateStatus s with
  | Except.error e => Except.error e
  | Except.ok s' =>
    match ParticleNode.run i.bindGroup i.initLookup i.updateLookup s' with
    | Except.error e => Except.error e
    | Except.ok d => Except.ok (s', d)

/-- The node state at the start of frame `n`, for the per-frame inputs `inp`,
starting from `ParticleNode::default()` (`Loading`).  Once a frame panics the
error propagates: there is no later state. -/
def stateBefore (inp : Nat → FrameInput) : Nat → Except String ParticleState
  | 0 => Except.ok ParticleNode.defaultState
  | n + 1 =>
    match stateBefore inp n with
    | Except.error e => Except.error e
    | Except.ok s =>
      match frameStep (inp n) s with
      | Except.error e => Except.error e
      | Except.ok sd => Except.ok sd.1

/-- The state `ParticleNode::run` executes with in frame `n`: the state right
after frame `n`'s `update` call. -/
def runStateAt (inp : Nat → FrameInput) (n : Nat) : Except String ParticleState :=
  match stateBefore inp n with
  | Except.error e => Except.error e
  | Except.ok s => ParticleNode.update (inp n).initStatus (inp n).updateStatus s

/-- The dispatch issued in frame `n` (`none`: the frame ran but bound no
pipeline; `error`: the process had already aborted, or aborted this frame). -/
def dispatchAt (inp : Nat → FrameInput) (n : Nat) : Except String (Option Dispatch) :=
  match stateBefore inp n with
  | Except.error e => Except.error e
  | Except.ok s =>
    match frameStep (inp n) s with
    | Except.error e => Except.error e
    | Except.ok sd => Except.ok sd.2

/-- The dispatch `ParticleNode::run` records whenever the state is `Init`. -/
def initDispatch : Dispatch :=
  { program := Program.initProg,
    x := SIZE.1 / WORKGROUP_SIZE, y := SIZE.2 / WORKGROUP_SIZE, z := 1 }

/-- Resource `ParticleBindGroups` of main.rs lines 197-198: the bound
resource set, as built by `render_device.create_bind_group` in
`prepare_bind_group` — the resolved storage buffer at binding 100 and the
config buffer at binding 101 (main.rs lines 219-232). -/
structure BindGroup where
  binding100 : Nat
  binding101 : ParticleConfig
deriving DecidableEq, Repr

/-- System `prepare_bind_group` of main.rs lines 200-236.  `storageResolved` is what
`render_assets.get(storage_buffer_id)` returns: `some buf` once the storage
buffer's GPU representation is resolved, `none` while it is not; the code
calls `.unwrap()` on it.  On success the bind group is created from the
resolved buffer and the config buffer. -/
def prepare_bind_group (storageResolved : Option Nat) (configBuffer : ParticleConfig) :
    Except String BindGroup :=
  match storageResolved with
  | none => Except.error unwrapNoneMsg
  | some buf => Except.ok { binding100 := buf, binding101 := configBuffer }

/-- The render-world resources the core owns or mutates across a session:
the node state, the `ParticleBindGroups` resource, and the extracted
`ParticleConfigBuffer` contents.  `bindGroupConstructions` counts the
`create_bind_group` calls performed so far (instrumentation for the
build-once property; the code itself keeps no such counter). -/
structure RenderWorld where
  nodeState : ParticleState
  bindGroup : Option BindGroup
  bindGroupConstructions : Nat
  configBuffer : ParticleConfig
deriving DecidableEq, Repr

/-- Per-frame inputs of a whole render frame: what the asset machinery
resolved for the storage buffer, plus the node's observations. -/
structure RenderFrameInput where
  storageResolved : Option Nat
  node : FrameInput
deriving DecidableEq, Repr

/-- One whole render frame, in schedule order (main.rs line 184 and the
render graph): the `prepare_bind_group` system runs in `RenderSet::Prepare`,
then the graph node's `update`, then its `run`.  `prepare_bind_group` runs
unconditionally every frame and, on success, inserts a freshly created
`ParticleBindGroups` resource.  The extracted `configBuffer` is never written
by any of these systems. -/
def renderFrame (w : RenderWorld) (i : RenderFrameInput) :
    Except String (RenderWorld × Option Dispatch) :=
  match prepare_bind_group i.storageResolved w.configBuffer with
  | Except.error e => Except.error e
  | Except.ok bg =>
    match ParticleNode.update i.node.initStatus i.node.updateStatus w.nodeState with
    | Except.error e => Except.error e
    | Except.ok s' =>
      match ParticleNode.run (some bg).isSome i.node.initLookup i.node.updateLookup s' with
      | Except.error e => Except.error e
      | Except.ok d =>
        Except.ok ({ w with nodeState := s',
                            bindGroup := some bg,
                            bindGroupConstructions := w.bindGroupConstructions + 1 }, d)

/-- The render world right after `setup` and plugin construction: node in
`Loading`, no bind group yet, no `create_bind_group` call yet, and the config
buffer holding the `ParticleConfig` built in `setup`. -/
def initialRenderWorld : RenderWorld :=
  { nodeState := ParticleNode.defaultState,
    bindGroup := none,
    bindGroupConstructions := 0,
    configBuffer := setupConfig }

/-- The render world at the start of frame `n` of a session. -/
def renderTrace (inp : Nat → RenderFrameInput) : Nat → Except String RenderWorld
  | 0 => Except.ok initialRenderWorld
  | n + 1 =>
    match renderTrace inp n with
    | Except.error e => Except.error e
    | Except.ok w =>
      match renderFrame w (inp n) with
      | Except.error e => Except.error e
      | Except.ok wd => Except.ok wd.1

/-- A session input where both pipelines compile instantly, every lookup
succeeds and the bind group is present: the generic happy path, used to
instantiate hypothesis-bearing theorems at concrete inputs. -/
def allOkInput : Nat → FrameInput :=
  fun _ => ⟨CachedPipelineState.Ok, CachedPipelineState.Ok, true, true, true⟩

/-- A session input whose first polled init status is a compile failure. -/
def failInput : Nat → FrameInput :=
  fun _ => ⟨CachedPipelineState.Err "wgsl parse error", CachedPipelineState.Pending,
            false, false, false⟩

/-- A whole-frame session input where the storage buffer is already resolved
(as asset id 0) from frame 0 on, while both pipelines are still compiling. -/
def resolvedPendingInput : Nat → RenderFrameInput :=
  fun _ => ⟨some 0, ⟨CachedPipelineState.Pending, CachedPipelineState.Pending,
            false, false, false⟩⟩

/-- The dispatch `ParticleNode::run` records whenever the state is `Update _`. -/
def updateDispatch : Dispatch :=
  { program := Program.updateProg,
    x := SIZE.1 / WORKGROUP_SIZE, y := SIZE.2 / WORKGROUP_SIZE, z := 1 }

/-- Progress rank of a state along `Loading → Init → Update(_)`. -/
def rank : ParticleState → Nat
  | ParticleState.Loading => 0
  | ParticleState.Init => 1
  | ParticleState.Update _ => 2

/-- The four states the machine can actually inhabit. -/
def goodState (s : ParticleState) : Prop :=
  s = ParticleState.Loading ∨ s = ParticleState.Init ∨
    s = ParticleState.Update 0 ∨ s = ParticleState.Update 1

/-! ## Helper lemmas -/

theorem update_rank_le (a b : CachedPipelineState) (s s' : ParticleState)
    (h : ParticleNode.update a b s = Except.ok s') : rank s ≤ rank s' := by
  cases s with
  | Loading =>
    cases a with
    | Pending =>
      obtain rfl : ParticleState.Loading = s' := by simpa [ParticleNode.update] using h
      decide
    | Ok =>
      obtain rfl : ParticleState.Init = s' := by simpa [ParticleNode.update] using h
      decide
    | Err e => simp [ParticleNode.update] at h
  | Init =>
    cases b with
    | Pending =>
      obtain rfl : ParticleState.Init = s' := by simpa [ParticleNode.update] using h
      decide
    | Ok =>
      obtain rfl : ParticleState.Update 1 = s' := by simpa [ParticleNode.update] using h
      decide
    | Err e =>
      obtain rfl : ParticleState.Init = s' := by simpa [ParticleNode.update] using h
      decide
  | Update p =>
    match p with
    | 0 =>
      obtain rfl : ParticleState.Update 1 = s' := by simpa [ParticleNode.update] using h
      decide
    | 1 =>
      obtain rfl : ParticleState.Update 0 = s' := by simpa [ParticleNode.update] using h
      decide
    | n + 2 => simp [ParticleNode.update] at h

theorem update_good (a b : CachedPipelineState) (s s' : ParticleState)
    (hg : goodState s) (h : ParticleNode.update a b s = Except.ok s') : goodState s' := by
  have hle := update_rank_le a b s s' h
  rcases hg with rfl | rfl | rfl | rfl
  · cases a with
    | Pending =>
      obtain rfl : ParticleState.Loading = s' := by simpa [ParticleNode.update] using h
      exact Or.inl rfl
    | Ok =>
      obtain rfl : ParticleState.Init = s' := by simpa [ParticleNode.update] using h
      exact Or.inr (Or.inl rfl)
    | Err e => simp [ParticleNode.update] at h
  · cases b with
    | Pending =>
      obtain rfl : ParticleState.Init = s' := by simpa [ParticleNode.update] using h
      exact Or.inr (Or.inl rfl)
    | Ok =>
      obtain rfl : ParticleState.Update 1 = s' := by simpa [ParticleNode.update] using h
      exact Or.inr (Or.inr (Or.inr rfl))
    | Err e =>
      obtain rfl : ParticleState.Init = s' := by simpa [ParticleNode.update] using h
      exact Or.inr (Or.inl rfl)
  · obtain rfl : ParticleState.Update 1 = s' := by simpa [ParticleNode.update] using h
    exact Or.inr (Or.inr (Or.inr rfl))
  · obtain rfl : ParticleState.Update 0 = s' := by simpa [ParticleNode.update] using h
    exact Or.inr (Or.inr (Or.inl rfl))

theorem frameStep_ok (i : FrameInput) (s s' : ParticleState) (d : Option Dispatch)
    (h : frameStep i s = Except.ok (s', d)) :
    ParticleNode.update i.initStatus i.updateStatus s = Except.ok s' ∧
    ParticleNode.run i.bindGroup i.initLookup i.updateLookup s' = Except.ok d := by
  unfold frameStep at h
  split at h
  · simp at h
  · rename_i t hu
    split at h
    · simp at h
    · rename_i d2 hr
      simp only [Except.ok.injEq, Prod.mk.injEq] at h
      obtain ⟨rfl, rfl⟩ := h
      exact ⟨hu, hr⟩

theorem stateBefore_succ_ok (inp : Nat → FrameInput) (n : Nat) (t : ParticleState)
    (h : stateBefore inp (n + 1) = Except.ok t) :
    ∃ s d, stateBefore inp n = Except.ok s ∧ frameStep (inp n) s = Except.ok (t, d) ∧
      dispatchAt inp n = Except.ok d := by
  rw [stateBefore] at h
  split at h
  · simp at h
  · rename_i s hs
    split at h
    · simp at h
    · rename_i sd hf
      simp only [Except.ok.injEq] at h
      subst h
      exact ⟨s, sd.2, hs, by rw [hf], by simp [dispatchAt, hs, hf]⟩

theorem stateBefore_error_mono (inp : Nat → FrameInput) (n k : Nat) (e : String)
    (h : stateBefore inp n = Except.error e) : stateBefore inp (n + k) = Except.error e := by
  induction k with
  | zero => exact h
  | succ k ih => rw [show n + (k + 1) = (n + k) + 1 from rfl, stateBefore, ih]

theorem dispatchAt_of_state_error (inp : Nat → FrameInput) (n : Nat) (e : String)
    (h : stateBefore inp n = Except.error e) : dispatchAt inp n = Except.error e := by
  rw [dispatchAt, h]

theorem run_init_ok (bg il ul : Bool) (d : Option Dispatch)
    (h : ParticleNode.run bg il ul ParticleState.Init = Except.ok d) :
    d = some initDispatch ∧ bg = true ∧ il = true := by
  cases bg <;> cases il <;> simp_all [ParticleNode.run, initDispatch]

theorem run_update_ok (bg il ul : Bool) (p : Nat) (d : Option Dispatch)
    (h : ParticleNode.run bg il ul (ParticleState.Update p) = Except.ok d) :
    d = some updateDispatch ∧ bg = true ∧ ul = true := by
  cases bg <;> cases ul <;> simp_all [ParticleNode.run, updateDispatch]

theorem stateBefore_rank_mono_add (inp : Nat → FrameInput) (m k : Nat) (s t : ParticleState)
    (hm : stateBefore inp m = Except.ok s) (ht : stateBefore inp (m + k) = Except.ok t) :
    rank s ≤ rank t := by
  induction k generalizing t with
  | zero =>
    simp only [Nat.add_zero] at ht
    rw [hm] at ht
    simp only [Except.ok.injEq] at ht
    subst ht
    exact Nat.le_refl _
  | succ k ih =>
    obtain ⟨s1, d, hs1, hf, -⟩ := stateBefore_succ_ok inp (m + k) t ht
    obtain ⟨hu, -⟩ := frameStep_ok _ _ _ _ hf
    exact Nat.le_trans (ih s1 hs1) (update_rank_le _ _ _ _ hu)

theorem state_entered_init (inp : Nat → FrameInput) (n : Nat) (s : ParticleState)
    (h : stateBefore inp n = Except.ok s) (hs : s ≠ ParticleState.Loading) :
    ∃ j, j < n ∧ (inp j).initStatus = CachedPipelineState.Ok := by
  induction n generalizing s with
  | zero =>
    simp only [stateBefore, ParticleNode.defaultState, Except.ok.injEq] at h
    exact absurd h.symm hs
  | succ n ih =>
    obtain ⟨s0, d, hs0, hf, -⟩ := stateBefore_succ_ok inp n s h
    obtain ⟨hu, -⟩ := frameStep_ok _ _ _ _ hf
    cases s0 with
    | Loading =>
      cases ha : (inp n).initStatus with
      | Pending =>
        rw [ha] at hu
        obtain rfl : ParticleState.Loading = s := by simpa [ParticleNode.update] using hu
        exact absurd rfl hs
      | Ok => exact ⟨n, Nat.lt_succ_self n, ha⟩
      | Err e => rw [ha] at hu; simp [ParticleNode.update] at hu
    | Init =>
      obtain ⟨j, hj, hok⟩ := ih ParticleState.Init hs0 (by simp)
      exact ⟨j, Nat.lt_succ_of_lt hj, hok⟩
    | Update p =>
      obtain ⟨j, hj, hok⟩ := ih (ParticleState.Update p) hs0 (by simp)
      exact ⟨j, Nat.lt_succ_of_lt hj, hok⟩

theorem state_entered_update (inp : Nat → FrameInput) (n : Nat) (p : Nat)
    (h : stateBefore inp n = Except.ok (ParticleState.Update p)) :
    ∃ j, j < n ∧ (inp j).updateStatus = CachedPipelineState.Ok := by
  induction n generalizing p with
  | zero =>
    simp [stateBefore, ParticleNode.defaultState] at h
  | succ n ih =>
    obtain ⟨s0, d, hs0, hf, -⟩ := stateBefore_succ_ok inp n _ h
    obtain ⟨hu, -⟩ := frameStep_ok _ _ _ _ hf
    cases s0 with
    | Loading =>
      exfalso
      cases ha : (inp n).initStatus with
      | Pending => rw [ha] at hu; simp [ParticleNode.update] at hu
      | Ok => rw [ha] at hu; simp [ParticleNode.update] at hu
      | Err e => rw [ha] at hu; simp [ParticleNode.update] at hu
    | Init =>
      cases hb : (inp n).updateStatus with
      | Pending => rw [hb] at hu; simp [ParticleNode.update] at hu
      | Ok => exact ⟨n, Nat.lt_succ_self n, hb⟩
      | Err e => rw [hb] at hu; simp [ParticleNode.update] at hu
    | Update q =>
      obtain ⟨j, hj, hok⟩ := ih q hs0
      exact ⟨j, Nat.lt_succ_of_lt hj, hok⟩

theorem init_dispatched_before (inp : Nat → FrameInput) (n : Nat) (s : ParticleState)
    (h : stateBefore inp n = Except.ok s) (hs : s ≠ ParticleState.Loading) :
    ∃ m, m < n ∧ dispatchAt inp m = Except.ok (some initDispatch) := by
  induction n generalizing s with
  | zero =>
    simp only [stateBefore, ParticleNode.defaultState, Except.ok.injEq] at h
    exact absurd h.symm hs
  | succ n ih =>
    obtain ⟨s0, d, hs0, hf, hd⟩ := stateBefore_succ_ok inp n s h
    obtain ⟨hu, hr⟩ := frameStep_ok _ _ _ _ hf
    cases s with
    | Loading => exact absurd rfl hs
    | Init =>
      obtain ⟨rfl, -, -⟩ := run_init_ok _ _ _ _ hr
      exact ⟨n, Nat.lt_succ_self n, hd⟩
    | Update p =>
      cases s0 with
      | Loading =>
        exfalso
        cases ha : (inp n).initStatus with
        | Pending => rw [ha] at hu; simp [ParticleNode.update] at hu
        | Ok => rw [ha] at hu; simp [ParticleNode.update] at hu
        | Err e => rw [ha] at hu; simp [ParticleNode.update] at hu
      | Init =>
        obtain ⟨m, hm, hdm⟩ := ih ParticleState.Init hs0 (by simp)
        exact ⟨m, Nat.lt_succ_of_lt hm, hdm⟩
      | Update q =>
        obtain ⟨m, hm, hdm⟩ := ih (ParticleState.Update q) hs0 (by simp)
        exact ⟨m, Nat.lt_succ_of_lt hm, hdm⟩

theorem update_not_from_loading (a b : CachedPipelineState) (p : Nat)
    (h : ParticleNode.update a b ParticleState.Loading = Except.ok (ParticleState.Update p)) :
    False := by
  cases a <;> simp [ParticleNode.update] at h

theorem loadingPanicMsg_ne_unreachable (e : String) : loadingPanicMsg e ≠ unreachableMsg := by
  intro h
  have hd : unreachableMsg.data = ("Initializing assets/compute.wgsl:\n").data ++ e.data := by
    rw [← h]
    show (loadingPanicMsg e).data = _
    rw [loadingPanicMsg, String.data_append, String.data_append, String.data_append]
    rfl
  have htake : unreachableMsg.data.take ("Initializing assets/compute.wgsl:\n").data.length =
      ("Initializing assets/compute.wgsl:\n").data := by
    rw [hd]
    exact List.take_left _ _
  exact absurd htake (by decide)

theorem renderFrame_preserves_config (w : RenderWorld) (i : RenderFrameInput)
    (w' : RenderWorld) (d : Option Dispatch) (h : renderFrame w i = Except.ok (w', d)) :
    w'.configBuffer = w.configBuffer := by
  unfold renderFrame at h
  split at h
  · simp at h
  · rename_i bg hbg
    split at h
    · simp at h
    · rename_i s' hu
      split at h
      · simp at h
      · rename_i d2 hr
        simp only [Except.ok.injEq, Prod.mk.injEq] at h
        obtain ⟨rfl, rfl⟩ := h.symm
        rfl

/-! ## Claim theorems -/

/-- C1: for every sequence of per-frame `ParticleNode::update` calls, the
node's state only moves forward along Loading → Init → Update(phase): at any
two live frames `m ≤ n`, once the state has left `Loading` it is never
`Loading` again, and once it has left `Init` it is never `Loading` or `Init`
again. -/
theorem C1_state_moves_forward (inp : Nat → FrameInput) (m n : Nat)
    (s t : ParticleState) (hmn : m ≤ n) (hm : stateBefore inp m = Except.ok s)
    (hn : stateBefore inp n = Except.ok t) :
    (s ≠ ParticleState.Loading → t ≠ ParticleState.Loading) ∧
    (s ≠ ParticleState.Loading ∧ s ≠ ParticleState.Init →
      t ≠ ParticleState.Loading ∧ t ≠ ParticleState.Init) := by
  have hr : rank s ≤ rank t := by
    obtain ⟨k, rfl⟩ := Nat.exists_eq_add_of_le hmn
    exact stateBefore_rank_mono_add inp m k s t hm hn
  constructor
  · intro hsL htL
    subst htL
    cases s with
    | Loading => exact hsL rfl
    | Init => exact absurd hr (by decide)
    | Update p => exact absurd hr (by simp [rank])
  · rintro ⟨hsL, hsI⟩
    cases s with
    | Loading => exact absurd rfl hsL
    | Init => exact absurd rfl hsI
    | Update p =>
      cases t with
      | Loading => exact absurd hr (by simp [rank])
      | Init => exact absurd hr (by simp [rank])
      | Update q => exact ⟨by simp, by simp⟩

/-- Witness for C1 at a concrete session: frame 1 is in `Init`, frame 2 in
`Update 1`, and the forward-only conclusions hold there. -/
theorem C1_witness :
    (ParticleState.Init ≠ ParticleState.Loading →
      ParticleState.Update 1 ≠ ParticleState.Loading) ∧
    (ParticleState.Init ≠ ParticleState.Loading ∧
        ParticleState.Init ≠ ParticleState.Init →
      ParticleState.Update 1 ≠ ParticleState.Loading ∧
        ParticleState.Update 1 ≠ ParticleState.Init) :=
  C1_state_moves_forward allOkInput 1 2 ParticleState.Init (ParticleState.Update 1)
    (by decide) rfl rfl

/-- C2, evaluated at the failing input: `prepare_bind_group` is registered as
a per-frame `Render` system and calls `create_bind_group` unconditionally,
so a session whose storage buffer is already resolved performs one
construction per frame — after two frames the count is 2, not the claimed 1.
This contradicts the code's own comment (main.rs lines 182-183: the system
"should only be called once, but it is called every frame"). -/
theorem C2_construction_count :
    (renderTrace resolvedPendingInput 1).map RenderWorld.bindGroupConstructions =
        Except.ok 1 ∧
    (renderTrace resolvedPendingInput 2).map RenderWorld.bindGroupConstructions =
        Except.ok 2 :=
  ⟨rfl, rfl⟩

/-- C3 counterexample: with the storage buffer unresolved, `prepare_bind_group`
does not return successfully — it panics on `unwrap` — refuting the claim
that it defers without failing. -/
theorem C3_counterexample : (prepare_bind_group none setupConfig).isOk = false := rfl

/-- C3 as amended: if the storage buffer's device representation is not yet
resolvable when the binder runs, `prepare_bind_group` panics with the
`Option::unwrap` panic, constructing no bind group and aborting the frame,
rather than deferring. -/
theorem C3_unresolved_buffer_panics (cfg : ParticleConfig) (w : RenderWorld)
    (node : FrameInput) :
    prepare_bind_group none cfg = Except.error unwrapNoneMsg ∧
    renderFrame w { storageResolved := none, node := node } =
      Except.error unwrapNoneMsg :=
  ⟨rfl, rfl⟩

/-- C4: across any sequence of frames (one `update` call then one `run` call
each), every frame that dispatches the update program is strictly preceded
by a frame that dispatched the init program, and no frame dispatches the
init program unless the `ParticleBindGroups` resource exists in that frame. -/
theorem C4_dispatch_ordering (inp : Nat → FrameInput) (n : Nat) (d : Dispatch)
    (h : dispatchAt inp n = Except.ok (some d)) :
    (d.program = Program.updateProg →
      ∃ m, m < n ∧ dispatchAt inp m = Except.ok (some initDispatch)) ∧
    (d.program = Program.initProg → (inp n).bindGroup = true) := by
  rw [dispatchAt] at h
  split at h
  · simp at h
  · rename_i s hs
    split at h
    · simp at h
    · rename_i sd hf
      simp only [Except.ok.injEq] at h
      obtain ⟨hu, hr⟩ := frameStep_ok (inp n) s sd.1 sd.2 (by rw [hf])
      cases hs1 : sd.1 with
      | Loading =>
        rw [hs1] at hr
        simp only [ParticleNode.run, Except.ok.injEq] at hr
        rw [← hr] at h
        simp at h
      | Init =>
        rw [hs1] at hr
        obtain ⟨hd, hbg, -⟩ := run_init_ok _ _ _ _ hr
        rw [hd] at h
        obtain rfl : initDispatch = d := Option.some.inj h
        refine ⟨fun hprog => absurd hprog (by decide), fun _ => hbg⟩
      | Update p =>
        rw [hs1] at hr
        obtain ⟨hd, -, -⟩ := run_update_ok _ _ _ _ _ hr
        rw [hd] at h
        obtain rfl : updateDispatch = d := Option.some.inj h
        refine ⟨fun _ => ?_, fun hprog => absurd hprog (by decide)⟩
        have hsne : s ≠ ParticleState.Loading := by
          intro hL
          subst hL
          rw [hs1] at hu
          exact update_not_from_loading _ _ _ hu
        exact init_dispatched_before inp n s hs hsne

/-- Witness for C4 at a concrete session: frame 1 dispatches the update
program, so an init dispatch exists strictly before it, and the init-program
conclusion holds vacuously-correctly at that frame. -/
theorem C4_witness :
    (updateDispatch.program = Program.updateProg →
      ∃ m, m < 1 ∧ dispatchAt allOkInput m = Except.ok (some initDispatch)) ∧
    (updateDispatch.program = Program.initProg → (allOkInput 1).bindGroup = true) :=
  C4_dispatch_ordering allOkInput 1 updateDispatch rfl

/-- C5: when polling in `Loading` reports the init pipeline's compilation as
failed, the process aborts with a panic whose message contains the configured
shader path `compute.wgsl` and the compiler error, and no dispatch is ever
issued in that frame or afterward. -/
theorem C5_compile_failure_fatal (inp : Nat → FrameInput) (n : Nat) (e : String)
    (hL : stateBefore inp n = Except.ok ParticleState.Loading)
    (hE : (inp n).initStatus = CachedPipelineState.Err e) :
    stateBefore inp (n + 1) = Except.error (loadingPanicMsg e) ∧
    (∀ k, n ≤ k → dispatchAt inp k = Except.error (loadingPanicMsg e)) ∧
    (∃ pre post, loadingPanicMsg e = pre ++ SHADER_COMPUTE_PATH ++ post) ∧
    (∃ pre post, loadingPanicMsg e = pre ++ e ++ post) := by
  have hu : ParticleNode.update (inp n).initStatus (inp n).updateStatus
      ParticleState.Loading = Except.error (loadingPanicMsg e) := by
    rw [hE]
    rfl
  have hf : frameStep (inp n) ParticleState.Loading =
      Except.error (loadingPanicMsg e) := by
    simp only [frameStep, hu]
  have hn1 : stateBefore inp (n + 1) = Except.error (loadingPanicMsg e) := by
    simp only [stateBefore, hL, hf]
  refine ⟨hn1, ?_, ?_, ?_⟩
  · intro k hk
    rcases Nat.eq_or_lt_of_le hk with rfl | hlt
    · simp only [dispatchAt, hL, hf]
    · obtain ⟨j, rfl⟩ := Nat.exists_eq_add_of_le hlt
      exact dispatchAt_of_state_error _ _ _
        (stateBefore_error_mono inp (n + 1) j _ hn1)
  · exact ⟨"Initializing assets/", ":\n" ++ e, by
      simp [loadingPanicMsg, String.append_assoc]⟩
  · exact ⟨"Initializing assets/" ++ SHADER_COMPUTE_PATH ++ ":\n", "", by
      simp [loadingPanicMsg, String.append_empty]⟩

/-- Witness for C5: a session whose init pipeline fails to compile on frame 0
aborts with the shader-path-citing panic and never dispatches. -/
theorem C5_witness :
    stateBefore failInput 1 = Except.error (loadingPanicMsg "wgsl parse error") ∧
    (∀ k, 0 ≤ k → dispatchAt failInput k =
      Except.error (loadingPanicMsg "wgsl parse error")) ∧
    (∃ pre post, loadingPanicMsg "wgsl parse error" =
      pre ++ SHADER_COMPUTE_PATH ++ post) ∧
    (∃ pre post, loadingPanicMsg "wgsl parse error" =
      pre ++ "wgsl parse error" ++ post) :=
  C5_compile_failure_fatal failInput 0 "wgsl parse error" rfl rfl

/-- C6: `Update` is entered as `Update(1)`; every later `update` call flips
the phase (`1,0,1,0,…`), and `run` binds and dispatches the update pipeline
identically for all phase values — the phase affects neither the pipeline
bound nor the dispatch issued. -/
theorem C6_phase_pingpong :
    (∀ a, ParticleNode.update a CachedPipelineState.Ok ParticleState.Init =
        Except.ok (ParticleState.Update 1)) ∧
    (∀ a b p, p ≤ 1 → ParticleNode.update a b (ParticleState.Update p) =
        Except.ok (ParticleState.Update (1 - p))) ∧
    (∀ bg il ul p q, ParticleNode.run bg il ul (ParticleState.Update p) =
        ParticleNode.run bg il ul (ParticleState.Update q)) := by
  refine ⟨fun a => rfl, ?_, fun bg il ul p q => rfl⟩
  intro a b p hp
  interval_cases p
  · rfl
  · rfl

/-- Witness for C6: one concrete flip `Update 1 → Update 0`. -/
theorem C6_witness :
    ParticleNode.update CachedPipelineState.Pending CachedPipelineState.Pending
        (ParticleState.Update 1) = Except.ok (ParticleState.Update 0) :=
  C6_phase_pingpong.2.1 CachedPipelineState.Pending CachedPipelineState.Pending 1
    (by decide)

/-- C7: with `SIZE = (1280/4, 720/4) = (320, 180)` and `WORKGROUP_SIZE = 8`,
every dispatch `ParticleNode::run` issues (states `Init` and `Update(_)`)
uses the workgroup grid `(SIZE.0 / WORKGROUP_SIZE, SIZE.1 / WORKGROUP_SIZE,
1) = (40, 22, 1)`. -/
theorem C7_dispatch_grid (bg il ul : Bool) (s : ParticleState) (d : Dispatch)
    (h : ParticleNode.run bg il ul s = Except.ok (some d)) :
    d.x = SIZE.1 / WORKGROUP_SIZE ∧ d.y = SIZE.2 / WORKGROUP_SIZE ∧ d.z = 1 ∧
      (d.x, d.y, d.z) = (40, 22, 1) := by
  cases s with
  | Loading => simp [ParticleNode.run] at h
  | Init =>
    obtain ⟨hd, -, -⟩ := run_init_ok _ _ _ _ h
    obtain rfl : d = initDispatch := Option.some.inj hd
    exact ⟨rfl, rfl, rfl, by decide⟩
  | Update p =>
    obtain ⟨hd, -, -⟩ := run_update_ok _ _ _ _ _ h
    obtain rfl : d = updateDispatch := Option.some.inj hd
    exact ⟨rfl, rfl, rfl, by decide⟩

/-- Witness for C7: the init dispatch issued in state `Init` has grid
`(40, 22, 1)`. -/
theorem C7_witness :
    initDispatch.x = SIZE.1 / WORKGROUP_SIZE ∧
    initDispatch.y = SIZE.2 / WORKGROUP_SIZE ∧ initDispatch.z = 1 ∧
    (initDispatch.x, initDispatch.y, initDispatch.z) = (40, 22, 1) :=
  C7_dispatch_grid true true true ParticleState.Init initDispatch rfl

/-- C8: every state reachable from `Loading` is `Loading`, `Init`, `Update 0`
or `Update 1`; hence no live frame's `update` call ever takes the
`unreachable!()` arm; and a phase outside 0 and 1, were it ever present,
would abort with the unreachable panic rather than be ignored. -/
theorem C8_reachable_good (inp : Nat → FrameInput) (n : Nat) :
    (∀ s, stateBefore inp n = Except.ok s → goodState s) ∧
    (∀ s, stateBefore inp n = Except.ok s →
      ParticleNode.update (inp n).initStatus (inp n).updateStatus s ≠
        Except.error unreachableMsg) ∧
    (∀ a b k, ParticleNode.update a b (ParticleState.Update (k + 2)) =
        Except.error unreachableMsg) := by
  have hgood : ∀ m s, stateBefore inp m = Except.ok s → goodState s := by
    intro m
    induction m with
    | zero =>
      intro s h
      simp only [stateBefore, ParticleNode.defaultState, Except.ok.injEq] at h
      exact Or.inl h.symm
    | succ m ih =>
      intro s h
      obtain ⟨s0, d, hs0, hf, -⟩ := stateBefore_succ_ok inp m s h
      obtain ⟨hu, -⟩ := frameStep_ok _ _ _ _ hf
      exact update_good _ _ _ _ (ih s0 hs0) hu
  refine ⟨hgood n, ?_, fun a b k => rfl⟩
  intro s h hbad
  rcases hgood n s h with rfl | rfl | rfl | rfl
  · cases ha : (inp n).initStatus with
    | Pending => rw [ha] at hbad; simp [ParticleNode.update] at hbad
    | Ok => rw [ha] at hbad; simp [ParticleNode.update] at hbad
    | Err e =>
      rw [ha] at hbad
      have heq : loadingPanicMsg e = unreachableMsg := by
        simpa [ParticleNode.update] using hbad
      exact loadingPanicMsg_ne_unreachable e heq
  · cases hb : (inp n).updateStatus with
    | Pending => rw [hb] at hbad; simp [ParticleNode.update] at hbad
    | Ok => rw [hb] at hbad; simp [ParticleNode.update] at hbad
    | Err e => rw [hb] at hbad; simp [ParticleNode.update] at hbad
  · simp [ParticleNode.update] at hbad
  · simp [ParticleNode.update] at hbad

/-- Witness for C8: at frame 2 of a concrete session the reached state
`Update 1` is one of the four inhabitable states, that frame's `update` call
does not take the unreachable arm, and a phase value of 2 would abort. -/
theorem C8_witness :
    goodState (ParticleState.Update 1) ∧
    ParticleNode.update (allOkInput 2).initStatus (allOkInput 2).updateStatus
        (ParticleState.Update 1) ≠ Except.error unreachableMsg ∧
    ParticleNode.update CachedPipelineState.Ok CachedPipelineState.Ok
        (ParticleState.Update 2) = Except.error unreachableMsg :=
  ⟨(C8_reachable_good allOkInput 2).1 (ParticleState.Update 1) rfl,
   (C8_reachable_good allOkInput 2).2.1 (ParticleState.Update 1) rfl,
   (C8_reachable_good allOkInput 2).2.2 CachedPipelineState.Ok CachedPipelineState.Ok 0⟩

/-- C9: `setup` builds the `ParticleConfig` once with `particle_count = 1000`,
the same value that sizes the particle array, and no core operation mutates
the extracted config afterward: at every live frame of every session the
config buffer still holds `particle_count = 1000`. -/
theorem C9_config_immutable :
    setupConfig.particle_count = 1000 ∧
    setupParticles.length = setupConfig.particle_count ∧
    (∀ inp n w, renderTrace inp n = Except.ok w →
      w.configBuffer = setupConfig ∧ w.configBuffer.particle_count = 1000) := by
  refine ⟨rfl, ?_, ?_⟩
  · rw [setupParticles]
    exact List.length_replicate _ _
  intro inp n
  induction n with
  | zero =>
    intro w h
    simp only [renderTrace, Except.ok.injEq] at h
    subst h
    exact ⟨rfl, rfl⟩
  | succ n ih =>
    intro w h
    rw [renderTrace] at h
    split at h
    · simp at h
    · rename_i w0 hw0
      split at h
      · simp at h
      · rename_i wd hwd
        simp only [Except.ok.injEq] at h
        subst h
        have hpres : wd.1.configBuffer = w0.configBuffer :=
          renderFrame_preserves_config w0 (inp n) wd.1 wd.2 (by rw [hwd])
        obtain ⟨h1, h2⟩ := ih w0 hw0
        exact ⟨hpres.trans h1, by rw [hpres, h1]; rfl⟩

/-- Witness for C9: the session-initial render world carries the setup config
with `particle_count = 1000`. -/
theorem C9_witness :
    initialRenderWorld.configBuffer = setupConfig ∧
    initialRenderWorld.configBuffer.particle_count = 1000 :=
  C9_config_immutable.2.2 resolvedPendingInput 0 initialRenderWorld rfl

/-- C10: assuming pipeline-cache coherence (`get_compute_pipeline` succeeds
exactly when the polled status is `Ok`) and monotone compile statuses (once
`Ok`, always `Ok`), whenever `ParticleNode::run` executes in `Init` the
init-pipeline lookup succeeds — its `unwrap` cannot panic — and whenever it
executes in `Update(_)` the update-pipeline lookup succeeds. -/
theorem C10_run_unwraps_safe (inp : Nat → FrameInput)
    (hcoh : ∀ k, ((inp k).initLookup = true ↔
        (inp k).initStatus = CachedPipelineState.Ok) ∧
      ((inp k).updateLookup = true ↔
        (inp k).updateStatus = CachedPipelineState.Ok))
    (hmono : ∀ j k, j ≤ k →
      ((inp j).initStatus = CachedPipelineState.Ok →
        (inp k).initStatus = CachedPipelineState.Ok) ∧
      ((inp j).updateStatus = CachedPipelineState.Ok →
        (inp k).updateStatus = CachedPipelineState.Ok))
    (n : Nat) :
    (runStateAt inp n = Except.ok ParticleState.Init →
      (inp n).initLookup = true) ∧
    (∀ p, runStateAt inp n = Except.ok (ParticleState.Update p) →
      (inp n).updateLookup = true) := by
  constructor
  · intro h
    rw [runStateAt] at h
    split at h
    · simp at h
    · rename_i s hs
      cases s with
      | Loading =>
        cases ha : (inp n).initStatus with
        | Pending => rw [ha] at h; simp [ParticleNode.update] at h
        | Ok => exact (hcoh n).1.mpr ha
        | Err e => rw [ha] at h; simp [ParticleNode.update] at h
      | Init =>
        obtain ⟨j, hj, hok⟩ := state_entered_init inp n ParticleState.Init hs (by simp)
        exact (hcoh n).1.mpr ((hmono j n (Nat.le_of_lt hj)).1 hok)
      | Update p =>
        exfalso
        match p, h with
        | 0, h => simp [ParticleNode.update] at h
        | 1, h => simp [ParticleNode.update] at h
        | q + 2, h => simp [ParticleNode.update] at h
  · intro p h
    rw [runStateAt] at h
    split at h
    · simp at h
    · rename_i s hs
      cases s with
      | Loading =>
        exfalso
        cases ha : (inp n).initStatus with
        | Pending => rw [ha] at h; simp [ParticleNode.update] at h
        | Ok => rw [ha] at h; simp [ParticleNode.update] at h
        | Err e => rw [ha] at h; simp [ParticleNode.update] at h
      | Init =>
        cases hb : (inp n).updateStatus with
        | Pending => rw [hb] at h; simp [ParticleNode.update] at h
        | Ok => exact (hcoh n).2.mpr hb
        | Err e => rw [hb] at h; simp [ParticleNode.update] at h
      | Update q =>
        obtain ⟨j, hj, hok⟩ := state_entered_update inp n q hs
        exact (hcoh n).2.mpr ((hmono j n (Nat.le_of_lt hj)).2 hok)

/-- Witness for C10 at a concrete coherent, monotone session: frame 1 runs in
`Update 1` and the update-pipeline lookup indeed succeeds there. -/
theorem C10_witness :
    runStateAt allOkInput 1 = Except.ok (ParticleState.Update 1) ∧
    (allOkInput 1).updateLookup = true :=
  ⟨rfl,
   (C10_run_unwraps_safe allOkInput
      (fun _ => ⟨⟨fun _ => rfl, fun _ => rfl⟩, ⟨fun _ => rfl, fun _ => rfl⟩⟩)
      (fun _ _ _ => ⟨fun _ => rfl, fun _ => rfl⟩) 1).2 1 rfl⟩
